import Mathlib

/-!
Verification of the remote-execution harness in `volt/sdk/decorators.py`
(the `machine` decorator and its inner `wrapper` function).

The Lium SDK object (`sdk.ls`, `sdk.up`, `sdk.wait_ready`, `sdk.exec`,
`sdk.upload`, `sdk.download`, `sdk.down`) is an external collaborator
(Fleet Manager / Remote Session); its responses are modelled as oracle
fields of a `World` record.  Everything else is a direct shallow
embedding of the Python code of `wrapper`.
-/

namespace Volt

/-- JSON values as decoded by Python `json.load` (numbers restricted to
integers, which suffices for every artifact considered here). -/
inductive Json where
  | null
  | bool (b : Bool)
  | num (n : Int)
  | str (s : String)
  | arr (elems : List Json)
  | obj (fields : List (String × Json))

/-- Python truthiness of a decoded JSON value (`bool(v)`): `None`, `False`,
`0`, `""`, `[]` and `{}` are falsy, everything else truthy. -/
def Json.truthy : Json → Bool
  | .null => false
  | .bool b => b
  | .num n => n != 0
  | .str s => s != ""
  | .arr xs => !xs.isEmpty
  | .obj fs => !fs.isEmpty

/-- Python `dict.get(k)` on a decoded JSON object: `None` (here `none`)
when the key is absent. -/
def dictGet (fs : List (String × Json)) (k : String) : Option Json :=
  fs.lookup k

/-- Truthiness of a `dict.get` result: `None` is falsy. -/
def optTruthy : Option Json → Bool
  | none => false
  | some v => v.truthy

/-- `exec_result.get('stderr') or exec_result.get('stdout') or 'Unknown remote error'`
(line 173): first truthy of stderr, stdout, generic message. -/
def streamMsg (stderr stdout : String) : String :=
  if stderr != "" then stderr
  else if stdout != "" then stdout
  else "Unknown remote error"

/-- The exceptions `wrapper` can raise, by payload.  Every case is a
`LiumError` except `sourceNoDef` (a `StopIteration` escaping from `next`),
`keyErrorResult` (a `KeyError` from `result_data['result']`) and
`attrErrorGet` (an `AttributeError` from calling `.get` on a truthy
non-dict).  Message text is the f-string of the corresponding `raise`. -/
inductive HarnessError where
  | noExecutor (machine : String)
  | podTimeout (podName : String)
  | sourceNoDef
  | venvCreateFailed (stderr : String)
  | installFailed (reqs : List String) (stderr : String)
  | remoteArtifact (error : Json) (appendedTb : Option Json)
  | remoteStream (msg : String)
  | keyErrorResult
  | attrErrorGet

/-- Outcome of the classification block (lines 162-174): either the value
returned by `wrapper` or the exception it raises. -/
inductive InnerResult where
  | retVal (v : Json)
  | raised (e : HarnessError)

/-- Lines 162-174 of `decorators.py`:

    if result_data and result_data.get('success'):
        return result_data['result']
    if result_data and not result_data.get('success', True):
        err_msg = result_data.get('error', 'Unknown remote error')
        tb = result_data.get('traceback')
        if tb:
            err_msg = f"..."
        raise LiumError(...)
    stderr = exec_result.get('stderr') or exec_result.get('stdout') or 'Unknown remote error'
    raise LiumError(...)

`result_data` is `none` when the download or `json.load` failed.
A truthy non-dict value makes `.get` raise `AttributeError`. -/
def classify (result_data : Option Json) (stderr stdout : String) : InnerResult :=
  match result_data with
  | none => .raised (.remoteStream (streamMsg stderr stdout))
  | some d =>
    if d.truthy then
      match d with
      | .obj fs =>
        if optTruthy (dictGet fs "success") then
          match dictGet fs "result" with
          | some r => .retVal r
          | none => .raised .keyErrorResult
        else if !((dictGet fs "success").getD (Json.bool true)).truthy then
          .raised (.remoteArtifact
            ((dictGet fs "error").getD (Json.str "Unknown remote error"))
            (match dictGet fs "traceback" with
             | some t => if t.truthy then some t else none
             | none => none))
        else .raised (.remoteStream (streamMsg stderr stdout))
      | _ => .raised .attrErrorGet
    else .raised (.remoteStream (streamMsg stderr stdout))

/-- Python `str.lower()` (ASCII, which covers every name handled here). -/
def lowerStr (s : String) : String := String.mk (s.toList.map Char.toLower)

/-- `needle in hay` for Python strings: substring test. -/
def hasSubList (needle : List Char) : List Char → Bool
  | [] => needle.isEmpty
  | c :: rest => needle.isPrefixOf (c :: rest) || hasSubList needle rest

/-- Python `needle in hay` on strings. -/
def containsSub (hay needle : String) : Bool :=
  hasSubList needle.toList hay.toList

/-- Python `s.split('\n')` (lines 76). -/
def splitNlGo (cur : List Char) : List Char → List String
  | [] => [String.mk cur.reverse]
  | c :: rest =>
    if c = '\n' then String.mk cur.reverse :: splitNlGo [] rest
    else splitNlGo (c :: cur) rest

/-- Python `s.split('\n')`. -/
def splitNl (s : String) : List String := splitNlGo [] s.toList

/-- Python `'\n'.join(lines)` (line 78). -/
def joinLines : List String → String
  | [] => ""
  | [l] => l
  | l :: ls => l ++ "\n" ++ joinLines ls

/-- Index of the first element satisfying `p`
(`next(i for i, line in enumerate(lines) if ...)`, line 77). -/
def firstIdxWhere (p : String → Bool) : List String → Option Nat
  | [] => none
  | l :: ls => if p l then some 0 else (firstIdxWhere p ls).map (· + 1)

/-- `'def ' in line` (line 77). -/
def hasDefKw (l : String) : Bool := containsSub l "def "

/-- Index of the first source line containing the function-definition
keyword; `none` means `next` raises `StopIteration`. -/
def firstDefIdx (lines : List String) : Option Nat := firstIdxWhere hasDefKw lines

/-- Lines 75-78: strip leading decorator lines from the captured source by
cutting at the first line containing `'def '`; `none` when no line does
(in which case `next(...)` raises `StopIteration`). -/
def strippedSource (src : String) : Option String :=
  match firstDefIdx (splitNl src) with
  | none => none
  | some i => some (joinLines ((splitNl src).drop i))

/-- Character class of Python `shlex.quote`: anything other than an ASCII
alphanumeric or one of `_ @ % + = : , .`, slash and hyphen forces
quoting. -/
def shSafeChar (c : Char) : Bool :=
  c.isAlphanum || c = '_' || c = '@' || c = '%' || c = '+' || c = '='
    || c = ':' || c = ',' || c = '.' || c = '/' || c = '-'

/-- Python `shlex.quote`: empty or unsafe strings are wrapped in single
quotes with embedded single quotes escaped; safe strings are returned
unchanged. -/
def shQuote (s : String) : String :=
  if !s.isEmpty && s.toList.all shSafeChar then s
  else
    String.singleton (Char.ofNat 39)
      ++ s.replace (String.singleton (Char.ofNat 39)) "\x27\x22\x27\x22\x27"
      ++ String.singleton (Char.ofNat 39)

/-- Fixed head of the generated runner script (lines 81-87 up to the
embedded function source). -/
def runnerHead : String :=
  "#!/usr/bin/env python3\nimport sys\nimport traceback\nimport json\n\n# Function source code\n"

/-- Tail of the generated runner script after the embedded function source
(lines 88-110), with the literal `repr` of the call arguments and the
function name spliced in. -/
def runnerTail (argsRepr kwargsRepr funcName : String) : String :=
  "\n\ntry:\n    # Arguments\n    args = " ++ argsRepr
    ++ "\n    kwargs = " ++ kwargsRepr
    ++ "\n\n    # Execute function\n    result = " ++ funcName
    ++ "(*args, **kwargs)\n\n    # Save result as JSON\n"
    ++ "    with open(\x27/tmp/result.json\x27, \x27w\x27) as f:\n"
    ++ "        json.dump(\x7b\x27success\x27: True, \x27result\x27: result\x7d, f)\n\n"
    ++ "except Exception as e:\n    # Save error\n"
    ++ "    with open(\x27/tmp/result.json\x27, \x27w\x27) as f:\n"
    ++ "        json.dump(\x7b\n            \x27success\x27: False,\n"
    ++ "            \x27error\x27: str(e),\n"
    ++ "            \x27traceback\x27: traceback.format_exc()\n        \x7d, f)\n"
    ++ "    sys.exit(1)\n"

/-- The generated runner script (lines 81-110): embedded stripped function
source between the fixed head and the argument/invocation tail. -/
def runnerScript (funcSource funcName argsRepr kwargsRepr : String) : String :=
  runnerHead ++ funcSource ++ runnerTail argsRepr kwargsRepr funcName

/-- An entry of `sdk.ls()`: a resource with an id and a descriptive
machine name. -/
structure Executor where
  id : String
  machine_name : String

/-- The decorator's configuration (arguments of `machine(...)`). -/
structure Config where
  machine : String
  template_id : Option String
  cleanup : Bool
  requirements : Option (List String)

/-- Oracle responses of the external collaborators (Lium SDK) plus the
ambient timestamp/random draw, for one invocation of `wrapper`. -/
structure World where
  /-- `int(time.time())` at pod naming / venv naming. -/
  now : Nat
  /-- `random.randint(1000, 9999)` for the venv name. -/
  rand : Nat
  /-- `sdk.ls()` listing, in order. -/
  executors : List Executor
  /-- `sdk.wait_ready` returns a truthy pod within the timeout. -/
  waitReadyOk : Bool
  /-- `sdk.exec(python3 -m venv ...)` reports success. -/
  venvOk : Bool
  /-- stderr captured from the venv-creation command. -/
  venvStderr : String
  /-- `sdk.exec(pip install ...)` reports success. -/
  installOk : Bool
  /-- stderr captured from the pip-install command. -/
  installStderr : String
  /-- stderr captured from running the runner script. -/
  runStderr : String
  /-- stdout captured from running the runner script. -/
  runStdout : String
  /-- Parsed `/tmp/result.json`; `none` when download or `json.load`
  failed (lines 150-157 set `result_data = None` on any exception). -/
  artifact : Option Json
  /-- `os.unlink(runner_file)` (line 178) raises `OSError`. -/
  unlinkRaises : Bool
  /-- `sdk.exec(rm -rf venv_path)` (line 184) raises. -/
  rmVenvRaises : Bool
  /-- `sdk.down(pod_info)` (line 191) raises (e.g. already released). -/
  downRaises : Bool

/-- Observable actions of one invocation, in program order. -/
inductive Ev where
  | ls
  | up (executorId : String) (podName : String)
  | waitReady (timeout : Nat)
  | writeRunner (script : String)
  | upload (remote : String)
  | venvCreate (cmd : String)
  | pipInstall (cmd : String)
  | runScript (cmd : String)
  | download (remote : String)
  | unlinkRunner
  | rmVenv (cmd : String)
  | downPod

/-- Final outcome of `wrapper`: a returned value, a raised harness
exception, or the `OSError` escaping from the unguarded
`finally: os.unlink(runner_file)`. -/
inductive RunResult where
  | retVal (v : Json)
  | raised (e : HarnessError)
  | unlinkOSError

/-- An inner-block outcome seen from outside the `try` blocks. -/
def InnerResult.toRun : InnerResult → RunResult
  | .retVal v => .retVal v
  | .raised e => .raised e

/-- `machine.lower() in executor.machine_name.lower()` (line 47). -/
def matchesMachine (machine : String) (e : Executor) : Bool :=
  containsSub (lowerStr e.machine_name) (lowerStr machine)

/-- Lines 44-49: scan `sdk.ls()` in order, keep the first executor whose
descriptive name contains the requested machine string
(case-insensitively). -/
def selectExecutor (machine : String) (executors : List Executor) : Option Executor :=
  executors.find? (matchesMachine machine)

/-- `f"remote-{func.__name__}-{int(time.time())}"` (line 55). -/
def podNameOf (funcName : String) (now : Nat) : String :=
  "remote-" ++ funcName ++ "-" ++ toString now

/-- `f"/tmp/lium_venv_{int(time.time())}_{random.randint(1000,9999)}"` (line 122). -/
def venvPathOf (now rand : Nat) : String :=
  "/tmp/lium_venv_" ++ toString now ++ "_" ++ toString rand

/-- `[req for req in (requirements or []) if req]` (line 130). -/
def filteredReqs (requirements : Option (List String)) : List String :=
  (requirements.getD []).filter (fun r => r != "")

/-- `try: op() except Exception: pass` around a teardown action
(lines 183-186 and 190-193): whether or not the action raises, the
pending result is untouched. -/
def swallowed (opRaises : Bool) (pending : RunResult) : RunResult :=
  match opRaises with
  | true => pending
  | false => pending

/-- Step 8 and step 9 (lines 141-160): run the uploaded script with the
venv interpreter, then always download and parse the artifact and hand
the parsed data to the classification block. -/
def runAndClassify (w : World) (vpy : String) (ev : List Ev) : InnerResult × List Ev :=
  let runCmd := shQuote vpy ++ " /tmp/runner.py"
  (classify w.artifact w.runStderr w.runStdout,
   ev ++ [Ev.runScript runCmd, Ev.download "/tmp/result.json"])

/-- Steps 5-9 (lines 117-174), the body of the inner `try`: upload the
runner, create the venv, optionally pip-install the filtered
requirements, then run and classify. -/
def innerSteps (w : World) (cfg : Config) (vp vpy : String) : InnerResult × List Ev :=
  let ev1 : List Ev := [Ev.upload "/tmp/runner.py"]
  let ev2 := ev1 ++ [Ev.venvCreate ("python3 -m venv " ++ shQuote vp)]
  if !w.venvOk then
    (.raised (.venvCreateFailed w.venvStderr), ev2)
  else
    let reqs := filteredReqs cfg.requirements
    if reqs.isEmpty then
      runAndClassify w vpy ev2
    else
      let installCmd :=
        shQuote vpy ++ " -m pip install " ++ String.intercalate " " (reqs.map shQuote)
      let ev3 := ev2 ++ [Ev.pipInstall installCmd]
      if !w.installOk then
        (.raised (.installFailed reqs w.installStderr), ev3)
      else
        runAndClassify w vpy ev3

/-- The whole of `wrapper` (lines 37-193) with the collaborators resolved
through `w`.  `argsRepr`/`kwargsRepr` stand for `repr(args)` and
`repr(kwargs)`.  Returns the final outcome and the trace of observable
actions, including the teardown of the two `finally` blocks:
the unguarded `os.unlink(runner_file)`, the guarded best-effort
`rm -rf venv_path` (attempted whenever `pod_info` is truthy and
`venv_path` was assigned), and the guarded best-effort `sdk.down`
(attempted only when `cleanup` was requested and `pod_info` is truthy). -/
def runWrapper (w : World) (cfg : Config)
    (funcSource funcName argsRepr kwargsRepr : String) : RunResult × List Ev :=
  let ev0 : List Ev := [Ev.ls]
  match selectExecutor cfg.machine w.executors with
  | none => (.raised (.noExecutor cfg.machine), ev0)
  | some ex =>
    let pname := podNameOf funcName w.now
    let ev1 := ev0 ++ [Ev.up ex.id pname, Ev.waitReady 300]
    if !w.waitReadyOk then
      (.raised (.podTimeout pname), ev1)
    else
      match strippedSource funcSource with
      | none =>
        let evT := if cfg.cleanup then [Ev.downPod] else []
        (RunResult.raised .sourceNoDef, ev1 ++ evT)
      | some src =>
        let script := runnerScript src funcName argsRepr kwargsRepr
        let ev2 := ev1 ++ [Ev.writeRunner script]
        let vp := venvPathOf w.now w.rand
        let vpy := vp ++ "/bin/python"
        let inner := innerSteps w cfg vp vpy
        let afterUnlink : RunResult :=
          if w.unlinkRaises then .unlinkOSError else inner.1.toRun
        let ev3 := ev2 ++ inner.2 ++ [Ev.unlinkRunner]
        let r1 := swallowed w.rmVenvRaises afterUnlink
        let evT1 := [Ev.rmVenv ("rm -rf " ++ shQuote vp)]
        let r2 := if cfg.cleanup then swallowed w.downRaises r1 else r1
        let evT2 := if cfg.cleanup then [Ev.downPod] else []
        (r2, ev3 ++ evT1 ++ evT2)

deriving instance DecidableEq for Ev

/-- Event classifier: `sdk.up` (pod allocation). -/
def Ev.isUp : Ev → Bool
  | .up _ _ => true
  | _ => false

/-- Event classifier: script upload. -/
def Ev.isUpload : Ev → Bool
  | .upload _ => true
  | _ => false

/-- Event classifier: local write of the packaged runner script. -/
def Ev.isWriteRunner : Ev → Bool
  | .writeRunner _ => true
  | _ => false

/-- Event classifier: `python3 -m venv` creation command. -/
def Ev.isVenvCreate : Ev → Bool
  | .venvCreate _ => true
  | _ => false

/-- Event classifier: `pip install` command. -/
def Ev.isPipInstall : Ev → Bool
  | .pipInstall _ => true
  | _ => false

/-- Event classifier: remote execution of the runner script. -/
def Ev.isRunScript : Ev → Bool
  | .runScript _ => true
  | _ => false

/-- Event classifier: artifact download. -/
def Ev.isDownload : Ev → Bool
  | .download _ => true
  | _ => false

/-- Event classifier: best-effort removal of the venv directory. -/
def Ev.isRmVenv : Ev → Bool
  | .rmVenv _ => true
  | _ => false

/-- `occursBefore p q t` holds when both kinds of events occur in `t` and
the first `p`-event strictly precedes the first `q`-event. -/
def occursBefore (p q : Ev → Bool) (t : List Ev) : Bool :=
  match t.findIdx? p, t.findIdx? q with
  | some i, some j => decide (i < j)
  | _, _ => false

/-- A fully healthy invocation environment used by concrete instances:
two listed resources, a pod that becomes ready, a venv and pip install
that succeed, and a success artifact carrying `42`. -/
def baseWorld : World := {
  now := 5, rand := 1234,
  executors := [⟨"e1", "NVIDIA A100-SXM4-80GB"⟩, ⟨"e2", "H200"⟩],
  waitReadyOk := true, venvOk := true, venvStderr := "",
  installOk := true, installStderr := "",
  runStderr := "", runStdout := "",
  artifact := some (Json.obj [("success", Json.bool true), ("result", Json.num 42)]),
  unlinkRaises := false, rmVenvRaises := false, downRaises := false }

/-- A concrete decorator configuration requesting an A100, cleanup and
one dependency. -/
def baseConfig : Config := {
  machine := "A100", template_id := none, cleanup := true,
  requirements := some ["numpy"] }

/-- Concrete decorated-function source used by concrete instances. -/
def baseSrc : String := "@machine(\x22A100\x22)\ndef f():\n    return 42"

end Volt

namespace Volt

/-! ### Helper lemmas -/

theorem swallowed_eq (b : Bool) (r : RunResult) : swallowed b r = r := by
  cases b <;> rfl

/-! ### C1 -/

/-- C1: for a function whose source is capturable and whose arguments are
literal-representable, when the remote pipeline succeeds — the downloaded
artifact parses to a dict with `success=true` — the value returned by the
wrapped function equals the value of calling the function directly.
`directVal` is the direct-call value; the faithful-remote-interpreter
assumption is `hfaithful`: the artifact is exactly the success artifact
`{"success": true, "result": directVal}` that the generated runner script
writes after computing the function. -/
theorem machine_success_returns_direct_value
    (w : World) (cfg : Config) (fs fn a k : String) (ex : Executor) (src : String)
    (directVal : Json)
    (hex : selectExecutor cfg.machine w.executors = some ex)
    (hready : w.waitReadyOk = true)
    (hsrc : strippedSource fs = some src)
    (hvenv : w.venvOk = true)
    (hinst : filteredReqs cfg.requirements = [] ∨ w.installOk = true)
    (hfaithful : w.artifact
      = some (Json.obj [("success", Json.bool true), ("result", directVal)]))
    (hunlink : w.unlinkRaises = false) :
    (runWrapper w cfg fs fn a k).1 = RunResult.retVal directVal := by
  rcases hinst with hreq | hio
  · simp [runWrapper, hex, hready, hsrc, hvenv, innerSteps, hreq, runAndClassify,
      hfaithful, hunlink, classify, Json.truthy, optTruthy, dictGet, List.lookup,
      swallowed_eq, InnerResult.toRun]
  · by_cases hreq : (filteredReqs cfg.requirements).isEmpty
    <;> simp_all [runWrapper, innerSteps, runAndClassify, classify, Json.truthy,
        optTruthy, dictGet, List.lookup, swallowed_eq, InnerResult.toRun]

/-- Witness for C1: the concrete healthy world returns the direct-call
value `42`. -/
theorem machine_success_returns_direct_value_witness :
    (runWrapper baseWorld baseConfig baseSrc "f" "()" "\x7b\x7d").1
      = RunResult.retVal (Json.num 42) :=
  machine_success_returns_direct_value baseWorld baseConfig baseSrc "f" "()" "\x7b\x7d"
    ⟨"e1", "NVIDIA A100-SXM4-80GB"⟩ "def f():\n    return 42" (Json.num 42)
    (by rfl) (by rfl) (by rfl) (by rfl) (Or.inr (by rfl)) (by rfl) (by rfl)

/-! ### C9 -/

/-- C9: when the downloaded artifact parses to a falsy JSON value (null,
false, 0, an empty string, list or object), the classification is exactly
the one used when no artifact exists: the stderr/stdout/generic-message
error, with no artifact field consulted. -/
theorem falsy_artifact_like_missing (v : Json) (stderr stdout : String)
    (hfalsy : v.truthy = false) :
    classify (some v) stderr stdout = classify none stderr stdout := by
  simp [classify, hfalsy]

/-- Witness for C9 at the falsy parses `\x7b\x7d`, `null`, `0` and `""`:
each is classified as if no artifact existed, yielding the stderr-based
error. -/
theorem falsy_artifact_like_missing_witness :
    Json.truthy (Json.obj []) = false
    ∧ classify (some (Json.obj [])) "boom" "out" = classify none "boom" "out"
    ∧ classify (some Json.null) "boom" "out" = classify none "boom" "out"
    ∧ classify (some (Json.num 0)) "boom" "out" = classify none "boom" "out"
    ∧ classify (some (Json.str "")) "boom" "out" = classify none "boom" "out"
    ∧ classify none "boom" "out" = .raised (.remoteStream "boom") :=
  ⟨rfl,
   falsy_artifact_like_missing (Json.obj []) "boom" "out" rfl,
   falsy_artifact_like_missing Json.null "boom" "out" rfl,
   falsy_artifact_like_missing (Json.num 0) "boom" "out" rfl,
   falsy_artifact_like_missing (Json.str "") "boom" "out" rfl,
   rfl⟩

/-! ### C2 -/

/-- C2: classification follows the strict priority order.  For a parsed
artifact conforming to the ExecutionArtifact schema (a dict whose
`success` field is a boolean, with string `error`/`traceback` fields):
`success=true` returns the artifact's `result`; `success=false` raises the
error built from the artifact's `error` field with the traceback appended
when present (and, traceback or not, never consults the captured streams —
stated for every `stderr`, in particular non-empty ones); a schema artifact
never produces the stream-based error; only the no-artifact/unparsable
case does, using stderr, else stdout, else the generic message. -/
theorem classify_priority_order (stderr stdout : String) (fs : List (String × Json)) :
    (∀ r, dictGet fs "success" = some (Json.bool true) →
       dictGet fs "result" = some r →
       classify (some (Json.obj fs)) stderr stdout = .retVal r)
    ∧ (∀ emsg tmsg, dictGet fs "success" = some (Json.bool false) →
       dictGet fs "error" = some (Json.str emsg) →
       dictGet fs "traceback" = some (Json.str tmsg) → tmsg ≠ "" →
       classify (some (Json.obj fs)) stderr stdout
         = .raised (.remoteArtifact (Json.str emsg) (some (Json.str tmsg))))
    ∧ (∀ emsg, dictGet fs "success" = some (Json.bool false) →
       dictGet fs "error" = some (Json.str emsg) →
       dictGet fs "traceback" = none →
       classify (some (Json.obj fs)) stderr stdout
         = .raised (.remoteArtifact (Json.str emsg) none))
    ∧ (∀ b m, dictGet fs "success" = some (Json.bool b) →
       classify (some (Json.obj fs)) stderr stdout ≠ .raised (.remoteStream m))
    ∧ (stderr ≠ "" → classify none stderr stdout = .raised (.remoteStream stderr))
    ∧ (stderr = "" → stdout ≠ "" →
       classify none stderr stdout = .raised (.remoteStream stdout))
    ∧ (stderr = "" → stdout = "" →
       classify none stderr stdout = .raised (.remoteStream "Unknown remote error")) := by
  refine ⟨?_, ?_, ?_, ?_, ?_, ?_, ?_⟩
  · intro r hsucc hres
    cases fs with
    | nil => simp [dictGet] at hsucc
    | cons hd tl =>
      simp [classify, Json.truthy, optTruthy, hsucc, hres]
  · intro emsg tmsg hsucc herr htb htmsg
    cases fs with
    | nil => simp [dictGet] at hsucc
    | cons hd tl =>
      simp [classify, Json.truthy, optTruthy, hsucc, herr, htb, htmsg]
  · intro emsg hsucc herr htb
    cases fs with
    | nil => simp [dictGet] at hsucc
    | cons hd tl =>
      simp [classify, Json.truthy, optTruthy, hsucc, herr, htb]
  · intro b m hsucc
    cases fs with
    | nil => simp [dictGet] at hsucc
    | cons hd tl =>
      cases b with
      | true =>
        cases hres : dictGet (hd :: tl) "result" with
        | none => simp [classify, Json.truthy, optTruthy, hsucc, hres]
        | some r => simp [classify, Json.truthy, optTruthy, hsucc, hres]
      | false =>
        simp [classify, Json.truthy, optTruthy, hsucc]
  · intro h
    simp [classify, streamMsg, h]
  · intro h1 h2
    simp [classify, streamMsg, h1, h2]
  · intro h1 h2
    simp [classify, streamMsg, h1, h2]

/-- Witness for C2: a success artifact returns its result; a failure
artifact with non-empty stderr captured still uses the artifact's
`error`/`traceback`; the artifact-free case cascades to stdout when
stderr is empty. -/
theorem classify_priority_order_witness :
    classify (some (Json.obj [("success", Json.bool true), ("result", Json.num 7)]))
        "stderr-text" "stdout-text" = .retVal (Json.num 7)
    ∧ classify (some (Json.obj [("success", Json.bool false), ("error", Json.str "boom"),
        ("traceback", Json.str "tb-lines")])) "stderr-text" "stdout-text"
        = .raised (.remoteArtifact (Json.str "boom") (some (Json.str "tb-lines")))
    ∧ classify none "" "stdout-text" = .raised (.remoteStream "stdout-text") := by
  refine ⟨?_, ?_, ?_⟩
  · exact (classify_priority_order "stderr-text" "stdout-text"
      [("success", Json.bool true), ("result", Json.num 7)]).1 (Json.num 7) (by rfl) (by rfl)
  · exact (classify_priority_order "stderr-text" "stdout-text"
      [("success", Json.bool false), ("error", Json.str "boom"),
       ("traceback", Json.str "tb-lines")]).2.1 "boom" "tb-lines"
      (by rfl) (by rfl) (by rfl) (by decide)
  · exact (classify_priority_order "" "stdout-text" []).2.2.2.2.2.1 rfl (by decide)

/-! ### C8 -/

theorem firstIdxWhere_earlier_false (p : String → Bool) :
    ∀ (ls : List String) (i : Nat), firstIdxWhere p ls = some i →
    ∀ j, j < i → ∀ l, ls[j]? = some l → p l = false := by
  intro ls
  induction ls with
  | nil => intro i h; simp [firstIdxWhere] at h
  | cons l0 tl ih =>
    intro i h j hj l hl
    by_cases hp : p l0
    · simp [firstIdxWhere, hp] at h
      omega
    · simp [firstIdxWhere, hp] at h
      obtain ⟨i0, hi0, rfl⟩ := h
      cases j with
      | zero =>
        simp at hl
        cases hl
        simpa using hp
      | succ j0 =>
        simp at hl
        exact ih i0 hi0 j0 (by omega) l hl

theorem firstIdxWhere_found (p : String → Bool) :
    ∀ (ls : List String) (i : Nat), firstIdxWhere p ls = some i →
    ∃ l, ls[i]? = some l ∧ p l = true := by
  intro ls
  induction ls with
  | nil => intro i h; simp [firstIdxWhere] at h
  | cons l0 tl ih =>
    intro i h
    by_cases hp : p l0
    · simp [firstIdxWhere, hp] at h
      subst h
      exact ⟨l0, by simp, hp⟩
    · simp [firstIdxWhere, hp] at h
      obtain ⟨i0, hi0, rfl⟩ := h
      obtain ⟨l, hl, hpl⟩ := ih i0 hi0
      exact ⟨l, by simpa using hl, hpl⟩

theorem joinLines_cons_starts (hd : String) (rest : List String) :
    ∃ t, joinLines (hd :: rest) = hd ++ t := by
  cases rest with
  | nil => exact ⟨"", by simp [joinLines]⟩
  | cons r rs =>
    exact ⟨"\n" ++ joinLines (r :: rs), by simp [joinLines, String.append_assoc]⟩

/-- C8: the packager cuts the captured source at the first line containing
the function-definition keyword `'def '` — no earlier line contains it,
the cut line does — and embeds exactly the remaining lines, rejoined, into
the generated script between the fixed head and tail; when the first such
line is the actual `def` header, the embedded source starts at that
header. -/
theorem strip_decorators_first_def_line (src : String) (i : Nat)
    (hidx : firstDefIdx (splitNl src) = some i) :
    strippedSource src = some (joinLines ((splitNl src).drop i))
    ∧ (∀ j, j < i → ∀ l, (splitNl src)[j]? = some l → hasDefKw l = false)
    ∧ (∃ l, (splitNl src)[i]? = some l ∧ hasDefKw l = true)
    ∧ (∀ hdr rest, (splitNl src).drop i = hdr :: rest →
        ∃ t, strippedSource src = some (hdr ++ t))
    ∧ (∀ s n a k, strippedSource src = some s →
        ∃ p q, runnerScript s n a k = p ++ s ++ q) := by
  refine ⟨by simp [strippedSource, hidx], ?_, ?_, ?_, ?_⟩
  · exact firstIdxWhere_earlier_false hasDefKw (splitNl src) i hidx
  · exact firstIdxWhere_found hasDefKw (splitNl src) i hidx
  · intro hdr rest hdrop
    obtain ⟨t, ht⟩ := joinLines_cons_starts hdr rest
    exact ⟨t, by simp [strippedSource, hidx, hdrop, ht]⟩
  · intro s n a k _
    exact ⟨runnerHead, runnerTail a k n, rfl⟩

/-- Witness for C8 on a decorated two-line function: the decorator line is
stripped, the embedded source starts at the `def` header, and the header
is the first line containing the keyword. -/
theorem strip_decorators_first_def_line_witness :
    firstDefIdx (splitNl baseSrc) = some 1
    ∧ strippedSource baseSrc = some (joinLines ((splitNl baseSrc).drop 1))
    ∧ strippedSource baseSrc = some "def f():\n    return 42"
    ∧ (∃ t, strippedSource baseSrc = some ("def f():" ++ t))
    ∧ (∃ p q, runnerScript "def f():\n    return 42" "f" "()" "\x7b\x7d"
        = p ++ "def f():\n    return 42" ++ q) := by
  have h := strip_decorators_first_def_line baseSrc 1 (by rfl)
  refine ⟨by rfl, h.1, by rfl, ?_, ?_⟩
  · exact h.2.2.2.1 "def f():" ["    return 42"] (by rfl)
  · exact h.2.2.2.2 "def f():\n    return 42" "f" "()" "\x7b\x7d" (by rfl)

/-! ### C4 -/

/-- C4: the Resource Selector matches the machine spec case-insensitively
as a substring against each listed descriptive name and returns the first
match in listing order (a matching head wins outright, a non-matching head
is skipped, and any returned executor does match); on the concrete listing
`NVIDIA A100-SXM4-80GB, H200` the spec `A100` selects the first entry;
when nothing matches, `wrapper` raises the no-executor error with a trace
containing only the listing call: no resource is provisioned and no
release or remote teardown is ever attempted. -/
theorem selector_first_match_and_no_provision :
    (∀ (m : String) (e : Executor) (es : List Executor),
       matchesMachine m e = true → selectExecutor m (e :: es) = some e)
    ∧ (∀ (m : String) (e : Executor) (es : List Executor),
       matchesMachine m e = false → selectExecutor m (e :: es) = selectExecutor m es)
    ∧ (∀ (m : String) (es : List Executor) (e : Executor),
       selectExecutor m es = some e → matchesMachine m e = true)
    ∧ selectExecutor "A100" [⟨"id1", "NVIDIA A100-SXM4-80GB"⟩, ⟨"id2", "H200"⟩]
        = some ⟨"id1", "NVIDIA A100-SXM4-80GB"⟩
    ∧ (∀ (w : World) (cfg : Config) (fsrc fn a k : String),
       selectExecutor cfg.machine w.executors = none →
       runWrapper w cfg fsrc fn a k
         = (.raised (.noExecutor cfg.machine), [Ev.ls])
       ∧ ∀ e ∈ (runWrapper w cfg fsrc fn a k).2,
           e.isUp = false ∧ e ≠ Ev.downPod ∧ e.isRmVenv = false) := by
  refine ⟨?_, ?_, ?_, by rfl, ?_⟩
  · intro m e es h
    simp [selectExecutor, List.find?_cons_of_pos, h]
  · intro m e es h
    simp [selectExecutor, List.find?_cons_of_neg, h]
  · intro m es e h
    exact List.find?_some h
  · intro w cfg fsrc fn a k h
    constructor
    · simp [runWrapper, h]
    · intro e he
      simp [runWrapper, h] at he
      subst he
      refine ⟨rfl, by decide, rfl⟩

/-- Witness for C4: the scenario listing plus a world whose listing has no
match for `B200`. -/
theorem selector_first_match_and_no_provision_witness :
    selectExecutor "A100" [⟨"id1", "NVIDIA A100-SXM4-80GB"⟩, ⟨"id2", "H200"⟩]
      = some ⟨"id1", "NVIDIA A100-SXM4-80GB"⟩
    ∧ matchesMachine "A100" ⟨"id1", "NVIDIA A100-SXM4-80GB"⟩ = true
    ∧ selectExecutor "A100" [⟨"id1", "NVIDIA A100-SXM4-80GB"⟩] = some ⟨"id1", "NVIDIA A100-SXM4-80GB"⟩
    ∧ runWrapper baseWorld { baseConfig with machine := "B200" } baseSrc "f" "()" "\x7b\x7d"
        = (.raised (.noExecutor "B200"), [Ev.ls]) := by
  have h := selector_first_match_and_no_provision
  refine ⟨h.2.2.2.1, by decide, ?_, ?_⟩
  · exact h.1 "A100" ⟨"id1", "NVIDIA A100-SXM4-80GB"⟩ [] (by decide)
  · exact (h.2.2.2.2 baseWorld { baseConfig with machine := "B200" } baseSrc "f" "()"
      "\x7b\x7d" (by rfl)).1

/-! ### C5 -/

/-- C5: when the provisioned pod does not become ready within the bounded
300s timeout, `wrapper` raises the provision-timeout error and the Remote
Executor stage is never entered: the trace stops at the readiness wait —
no script upload, no environment creation, no dependency install, no
remote command execution, no download — and no teardown of remote state is
attempted either (the pod reference is falsy). -/
theorem provision_timeout_skips_executor
    (w : World) (cfg : Config) (fsrc fn a k : String) (ex : Executor)
    (hex : selectExecutor cfg.machine w.executors = some ex)
    (hready : w.waitReadyOk = false) :
    runWrapper w cfg fsrc fn a k
      = (.raised (.podTimeout (podNameOf fn w.now)),
         [Ev.ls, Ev.up ex.id (podNameOf fn w.now), Ev.waitReady 300])
    ∧ ∀ e ∈ (runWrapper w cfg fsrc fn a k).2,
        e.isUpload = false ∧ e.isVenvCreate = false ∧ e.isPipInstall = false
        ∧ e.isRunScript = false ∧ e.isDownload = false ∧ e.isRmVenv = false
        ∧ e ≠ Ev.downPod := by
  constructor
  · simp [runWrapper, hex, hready]
  · intro e he
    simp [runWrapper, hex, hready] at he
    rcases he with rfl | rfl | rfl <;> exact ⟨rfl, rfl, rfl, rfl, rfl, rfl, by simp⟩

/-- Witness for C5: the healthy world with a pod that never becomes ready
stops after the readiness wait. -/
theorem provision_timeout_skips_executor_witness :
    runWrapper { baseWorld with waitReadyOk := false } baseConfig baseSrc "f" "()" "\x7b\x7d"
      = (.raised (.podTimeout "remote-f-5"),
         [Ev.ls, Ev.up "e1" "remote-f-5", Ev.waitReady 300]) :=
  (provision_timeout_skips_executor { baseWorld with waitReadyOk := false }
    baseConfig baseSrc "f" "()" "\x7b\x7d" ⟨"e1", "NVIDIA A100-SXM4-80GB"⟩
    (by rfl) (by rfl)).1

/-! ### C6 -/

/-- C6: when installing the requested dependencies fails, `wrapper` aborts
with the dependency-install error carrying the captured install stderr and
the (filtered) requirement list; the packaged script is never executed
remotely and the artifact is never downloaded; teardown still runs — the
local script file is deleted, the venv directory removal is attempted, and
the pod is released exactly when cleanup was requested. -/
theorem dep_install_failure_aborts_with_teardown
    (w : World) (cfg : Config) (fsrc fn a k : String) (ex : Executor) (src : String)
    (r : String) (rs : List String)
    (hex : selectExecutor cfg.machine w.executors = some ex)
    (hready : w.waitReadyOk = true)
    (hsrc : strippedSource fsrc = some src)
    (hvenv : w.venvOk = true)
    (hreq : filteredReqs cfg.requirements = r :: rs)
    (hinst : w.installOk = false)
    (hunlink : w.unlinkRaises = false) :
    (runWrapper w cfg fsrc fn a k).1
      = .raised (.installFailed (r :: rs) w.installStderr)
    ∧ (∀ e ∈ (runWrapper w cfg fsrc fn a k).2,
        e.isRunScript = false ∧ e.isDownload = false)
    ∧ Ev.unlinkRunner ∈ (runWrapper w cfg fsrc fn a k).2
    ∧ (cfg.cleanup = true → Ev.downPod ∈ (runWrapper w cfg fsrc fn a k).2)
    ∧ (∃ cmd, Ev.rmVenv cmd ∈ (runWrapper w cfg fsrc fn a k).2) := by
  refine ⟨?_, ?_, ?_, ?_, ?_⟩
  · simp [runWrapper, hex, hready, hsrc, innerSteps, hvenv, hreq, hinst, hunlink,
      swallowed_eq, InnerResult.toRun]
  · intro e he
    cases hc : cfg.cleanup
    <;> simp [runWrapper, hex, hready, hsrc, innerSteps, hvenv, hreq, hinst, hc] at he
    <;> rcases he with rfl | rfl | rfl | rfl | rfl | rfl | rfl | rfl | rfl | rfl
    <;> exact ⟨rfl, rfl⟩
  · cases hc : cfg.cleanup
    <;> simp [runWrapper, hex, hready, hsrc, innerSteps, hvenv, hreq, hinst, hc]
  · intro hc
    simp [runWrapper, hex, hready, hsrc, innerSteps, hvenv, hreq, hinst, hc]
  · refine ⟨"rm -rf " ++ shQuote (venvPathOf w.now w.rand), ?_⟩
    cases hc : cfg.cleanup
    <;> simp [runWrapper, hex, hready, hsrc, innerSteps, hvenv, hreq, hinst, hc]

/-- Witness for C6: in the healthy world with a failing
`numpy==1.26.0` install, the harness aborts with the captured stderr,
deletes the local script, and releases the pod (cleanup requested). -/
theorem dep_install_failure_aborts_with_teardown_witness :
    (runWrapper { baseWorld with installOk := false, installStderr := "pip exploded" }
        { baseConfig with requirements := some ["numpy==1.26.0"] }
        baseSrc "f" "()" "\x7b\x7d").1
      = .raised (.installFailed ["numpy==1.26.0"] "pip exploded")
    ∧ Ev.unlinkRunner ∈ (runWrapper
        { baseWorld with installOk := false, installStderr := "pip exploded" }
        { baseConfig with requirements := some ["numpy==1.26.0"] }
        baseSrc "f" "()" "\x7b\x7d").2
    ∧ Ev.downPod ∈ (runWrapper
        { baseWorld with installOk := false, installStderr := "pip exploded" }
        { baseConfig with requirements := some ["numpy==1.26.0"] }
        baseSrc "f" "()" "\x7b\x7d").2 := by
  have h := dep_install_failure_aborts_with_teardown
    { baseWorld with installOk := false, installStderr := "pip exploded" }
    { baseConfig with requirements := some ["numpy==1.26.0"] }
    baseSrc "f" "()" "\x7b\x7d" ⟨"e1", "NVIDIA A100-SXM4-80GB"⟩
    "def f():\n    return 42" "numpy==1.26.0" []
    (by rfl) (by rfl) (by rfl) (by rfl) (by rfl) (by rfl) (by rfl)
  exact ⟨h.1, h.2.2.1, h.2.2.2.1 (by rfl)⟩

/-! ### C10 -/

theorem classify_never_installFailed (rd : Option Json) (se so : String)
    (rs : List String) (st : String) :
    classify rd se so ≠ .raised (.installFailed rs st) := by
  intro h
  rcases rd with _ | d
  · simp [classify] at h
  · rcases d with _ | b | n | sstr | xs | fs
    · simp [classify, Json.truthy] at h
    · rcases b <;> simp [classify, Json.truthy] at h
    · by_cases hn : n = 0 <;> simp [classify, Json.truthy, hn] at h
    · by_cases hs : sstr = "" <;> simp [classify, Json.truthy, hs] at h
    · rcases hx : xs.isEmpty <;> simp [classify, Json.truthy, hx] at h
    · by_cases hx : fs.isEmpty
      · simp [classify, Json.truthy, hx] at h
      · have houter : (Json.obj fs).truthy = true := by simp [Json.truthy, hx]
        rcases ht : optTruthy (dictGet fs "success")
        · rcases h2 : ((dictGet fs "success").getD (Json.bool true)).truthy
          <;> simp [classify, houter, hx, ht, h2] at h
        · rcases hres : dictGet fs "result" with _ | r
          <;> simp [classify, Json.truthy, hx, ht, hres] at h

theorem toRun_classify_ne_installFailed (rd : Option Json) (se so : String)
    (rs : List String) (st : String) :
    (classify rd se so).toRun ≠ .raised (.installFailed rs st) := by
  cases hcl : classify rd se so with
  | retVal v => simp [InnerResult.toRun]
  | raised e =>
    simp only [InnerResult.toRun]
    intro he
    injection he with he2
    rw [he2] at hcl
    exact classify_never_installFailed rd se so rs st hcl

/-- C10: falsy entries of the requirements sequence are filtered out
before installation; the pip install command runs exactly when at least
one requirement survives the filter.  When the requirements are omitted,
empty, or all falsy, no install command ever appears in the trace and a
dependency-install error cannot arise; when some requirement survives and
the pipeline reaches the environment stage, the install command for
exactly the surviving requirements is executed. -/
theorem requirements_filtering_iff_install :
    (∀ l, filteredReqs (some l) = l.filter (fun req => req != ""))
    ∧ filteredReqs none = []
    ∧ (∀ (w : World) (cfg : Config) (fsrc fn a k : String),
       filteredReqs cfg.requirements = [] →
       (∀ e ∈ (runWrapper w cfg fsrc fn a k).2, e.isPipInstall = false)
       ∧ ∀ rs st, (runWrapper w cfg fsrc fn a k).1 ≠ .raised (.installFailed rs st))
    ∧ (∀ (w : World) (cfg : Config) (fsrc fn a k : String) (ex : Executor)
         (src r : String) (rs : List String),
       selectExecutor cfg.machine w.executors = some ex →
       w.waitReadyOk = true →
       strippedSource fsrc = some src →
       w.venvOk = true →
       filteredReqs cfg.requirements = r :: rs →
       Ev.pipInstall (shQuote (venvPathOf w.now w.rand ++ "/bin/python")
           ++ " -m pip install "
           ++ String.intercalate " " ((r :: rs).map shQuote))
         ∈ (runWrapper w cfg fsrc fn a k).2) := by
  refine ⟨fun l => rfl, rfl, ?_, ?_⟩
  · intro w cfg fsrc fn a k hreq
    cases hsel : selectExecutor cfg.machine w.executors with
    | none =>
      constructor
      · intro e he
        simp [runWrapper, hsel] at he
        subst he
        rfl
      · intro rs st
        simp [runWrapper, hsel]
    | some ex =>
      rcases hready : w.waitReadyOk with _ | _
      · constructor
        · intro e he
          simp [runWrapper, hsel, hready] at he
          rcases he with rfl | rfl | rfl <;> rfl
        · intro rs st
          simp [runWrapper, hsel, hready]
      · cases hsrc : strippedSource fsrc with
        | none =>
          constructor
          · intro e he
            cases hc : cfg.cleanup
            <;> simp [runWrapper, hsel, hready, hsrc, hc] at he
            <;> rcases he with rfl | rfl | rfl | rfl <;> rfl
          · intro rs st
            cases hc : cfg.cleanup <;> simp [runWrapper, hsel, hready, hsrc, hc]
        | some src =>
          rcases hvenv : w.venvOk with _ | _
          · constructor
            · intro e he
              cases hc : cfg.cleanup
              <;> cases hu : w.unlinkRaises
              <;> simp [runWrapper, hsel, hready, hsrc, innerSteps, hvenv, hreq, hc, hu] at he
              <;> rcases he with rfl | rfl | rfl | rfl | rfl | rfl | rfl | rfl | rfl | rfl <;> rfl
            · intro rs st
              cases hc : cfg.cleanup
              <;> cases hu : w.unlinkRaises
              <;> simp [runWrapper, hsel, hready, hsrc, innerSteps, hvenv, hreq, hc, hu,
                    swallowed_eq, InnerResult.toRun]
          · constructor
            · intro e he
              cases hc : cfg.cleanup
              <;> simp [runWrapper, hsel, hready, hsrc, innerSteps, runAndClassify,
                    hvenv, hreq, hc] at he
              <;> rcases he with rfl | rfl | rfl | rfl | rfl | rfl | rfl | rfl | rfl | rfl | rfl | rfl <;> rfl
            · intro rs st
              cases hc : cfg.cleanup
              <;> cases hu : w.unlinkRaises
              <;> simp [runWrapper, hsel, hready, hsrc, innerSteps, runAndClassify,
                    hvenv, hreq, hc, hu, swallowed_eq]
              <;> exact toRun_classify_ne_installFailed _ _ _ _ _
  · intro w cfg fsrc fn a k ex src r rs hsel hready hsrc hvenv hreq
    rcases hinst : w.installOk
    <;> cases hc : cfg.cleanup
    <;> simp [runWrapper, hsel, hready, hsrc, innerSteps, runAndClassify, hvenv, hreq,
          hinst, hc]

/-- Witness for C10: requirements `["", ""]` produce no install command
and cannot raise a dependency error; requirement `["numpy"]` produces the
pip install command in the trace. -/
theorem requirements_filtering_iff_install_witness :
    filteredReqs (some ["", ""]) = []
    ∧ (∀ e ∈ (runWrapper baseWorld { baseConfig with requirements := some ["", ""] }
        baseSrc "f" "()" "\x7b\x7d").2, e.isPipInstall = false)
    ∧ Ev.pipInstall "/tmp/lium_venv_5_1234/bin/python -m pip install numpy"
        ∈ (runWrapper baseWorld baseConfig baseSrc "f" "()" "\x7b\x7d").2 := by
  have h := requirements_filtering_iff_install
  refine ⟨rfl, (h.2.2.1 baseWorld { baseConfig with requirements := some ["", ""] }
    baseSrc "f" "()" "\x7b\x7d" (by rfl)).1, ?_⟩
  have h2 := h.2.2.2 baseWorld baseConfig baseSrc "f" "()" "\x7b\x7d"
    ⟨"e1", "NVIDIA A100-SXM4-80GB"⟩ "def f():\n    return 42" "numpy" []
    (by rfl) (by rfl) (by rfl) (by rfl) (by rfl)
  simpa using h2

/-! ### C3 -/

/-- C3 counterexample: in a fully healthy run whose artifact is the
success artifact carrying `42`, a failing local-script deletion
(`os.unlink(runner_file)` raising) replaces the primary result — the
wrapper does not return `42` but lets the `OSError` escape, because the
inner `finally:` block (line 178) is not exception-guarded.  This refutes
the claim that any failure while deleting the local packaged script is
swallowed and can never mask the primary outcome. -/
theorem unlink_failure_masks_result_cx :
    ({ baseWorld with unlinkRaises := true } : World).artifact
      = some (Json.obj [("success", Json.bool true), ("result", Json.num 42)])
    ∧ (runWrapper { baseWorld with unlinkRaises := true } baseConfig baseSrc
        "f" "()" "\x7b\x7d").1 = RunResult.unlinkOSError
    ∧ (runWrapper { baseWorld with unlinkRaises := true } baseConfig baseSrc
        "f" "()" "\x7b\x7d").1 ≠ RunResult.retVal (Json.num 42) := by
  refine ⟨rfl, by rfl, ?_⟩
  intro hcontra
  have h2 : RunResult.unlinkOSError = RunResult.retVal (Json.num 42) := hcontra
  exact RunResult.noConfusion h2

/-- C3 amended: failures while removing the remote environment directory
or releasing the remote resource — including a release of an
already-released resource — are swallowed and never change the outcome or
the trace, whatever the primary result or error of stages 1-6 was; but a
failure while deleting the local packaged script is not swallowed:
whenever the pipeline reached the packaging stage and `os.unlink` raises,
the `OSError` replaces the primary outcome. -/
theorem teardown_swallow_amended :
    (∀ (w : World) (cfg : Config) (fsrc fn a k : String) (b1 b2 : Bool),
       runWrapper { w with rmVenvRaises := b1, downRaises := b2 } cfg fsrc fn a k
         = runWrapper w cfg fsrc fn a k)
    ∧ (∀ (w : World) (cfg : Config) (fsrc fn a k : String) (ex : Executor) (src : String),
       selectExecutor cfg.machine w.executors = some ex →
       w.waitReadyOk = true →
       strippedSource fsrc = some src →
       w.unlinkRaises = true →
       (runWrapper w cfg fsrc fn a k).1 = RunResult.unlinkOSError) := by
  constructor
  · intro w cfg fsrc fn a k b1 b2
    cases w
    simp [runWrapper, innerSteps, runAndClassify, swallowed_eq]
  · intro w cfg fsrc fn a k ex src hex hready hsrc hun
    cases hc : cfg.cleanup
    <;> simp [runWrapper, hex, hready, hsrc, hun, hc, swallowed_eq]

/-- Witness for C3 amended: with both best-effort teardown actions
raising, the healthy run is unchanged; with a raising unlink, the
primary success is replaced. -/
theorem teardown_swallow_amended_witness :
    runWrapper { baseWorld with rmVenvRaises := true, downRaises := true }
        baseConfig baseSrc "f" "()" "\x7b\x7d"
      = runWrapper baseWorld baseConfig baseSrc "f" "()" "\x7b\x7d"
    ∧ (runWrapper { baseWorld with unlinkRaises := true } baseConfig baseSrc
        "f" "()" "\x7b\x7d").1 = RunResult.unlinkOSError :=
  ⟨teardown_swallow_amended.1 baseWorld baseConfig baseSrc "f" "()" "\x7b\x7d" true true,
   teardown_swallow_amended.2 { baseWorld with unlinkRaises := true } baseConfig baseSrc
     "f" "()" "\x7b\x7d" ⟨"e1", "NVIDIA A100-SXM4-80GB"⟩ "def f():\n    return 42"
     (by rfl) (by rfl) (by rfl) (by rfl)⟩

/-! ### C7 -/

/-- C7 counterexample: in a concrete healthy run the script upload occurs
strictly before the isolated environment is created (upload at trace index
4, venv creation at index 5, pip install at index 6), so the environment
is not created, and dependencies are not installed, before the Remote
Executor stage begins with its upload — refuting the claimed
Packager → Environment Builder → Executor ordering. -/
theorem upload_precedes_venv_cx :
    occursBefore Ev.isVenvCreate Ev.isUpload
        (runWrapper baseWorld baseConfig baseSrc "f" "()" "\x7b\x7d").2 = false
    ∧ occursBefore Ev.isUpload Ev.isVenvCreate
        (runWrapper baseWorld baseConfig baseSrc "f" "()" "\x7b\x7d").2 = true
    ∧ (runWrapper baseWorld baseConfig baseSrc "f" "()" "\x7b\x7d").2.findIdx? Ev.isUpload
        = some 4
    ∧ (runWrapper baseWorld baseConfig baseSrc "f" "()" "\x7b\x7d").2.findIdx? Ev.isVenvCreate
        = some 5
    ∧ (runWrapper baseWorld baseConfig baseSrc "f" "()" "\x7b\x7d").2.findIdx? Ev.isPipInstall
        = some 6 :=
  ⟨by rfl, by rfl, by rfl, by rfl, by rfl⟩

/-- C7 amended: per invocation the order is Packager → upload →
Environment Builder → run: the runner script is written locally before the
upload, uploaded to the fixed remote path `/tmp/runner.py` before the
isolated environment is created, the environment is created (and, when any
requirement survives filtering, dependencies are installed) before the
script is run, and the run uses the isolated environment's interpreter. -/
theorem stage_order_amended
    (w : World) (cfg : Config) (fsrc fn a k : String) (ex : Executor) (src : String)
    (hex : selectExecutor cfg.machine w.executors = some ex)
    (hready : w.waitReadyOk = true)
    (hsrc : strippedSource fsrc = some src)
    (hvenv : w.venvOk = true)
    (hinst : w.installOk = true) :
    occursBefore Ev.isWriteRunner Ev.isUpload (runWrapper w cfg fsrc fn a k).2 = true
    ∧ occursBefore Ev.isUpload Ev.isVenvCreate (runWrapper w cfg fsrc fn a k).2 = true
    ∧ occursBefore Ev.isVenvCreate Ev.isRunScript (runWrapper w cfg fsrc fn a k).2 = true
    ∧ (∀ r rs, filteredReqs cfg.requirements = r :: rs →
        occursBefore Ev.isVenvCreate Ev.isPipInstall (runWrapper w cfg fsrc fn a k).2 = true
        ∧ occursBefore Ev.isPipInstall Ev.isRunScript (runWrapper w cfg fsrc fn a k).2 = true)
    ∧ Ev.upload "/tmp/runner.py" ∈ (runWrapper w cfg fsrc fn a k).2
    ∧ Ev.runScript (shQuote (venvPathOf w.now w.rand ++ "/bin/python") ++ " /tmp/runner.py")
        ∈ (runWrapper w cfg fsrc fn a k).2 := by
  rcases hreqs : filteredReqs cfg.requirements with _ | ⟨r0, rs0⟩
  · refine ⟨?_, ?_, ?_, ?_, ?_, ?_⟩
    · simp [runWrapper, hex, hready, hsrc, innerSteps, runAndClassify, hvenv, hreqs,
        occursBefore, List.findIdx?, Ev.isWriteRunner, Ev.isUpload]
    · simp [runWrapper, hex, hready, hsrc, innerSteps, runAndClassify, hvenv, hreqs,
        occursBefore, List.findIdx?, Ev.isUpload, Ev.isVenvCreate]
    · simp [runWrapper, hex, hready, hsrc, innerSteps, runAndClassify, hvenv, hreqs,
        occursBefore, List.findIdx?, Ev.isVenvCreate, Ev.isRunScript]
    · intro r rs hreq
      exact absurd hreq (by simp)
    · simp [runWrapper, hex, hready, hsrc, innerSteps, runAndClassify, hvenv, hreqs]
    · simp [runWrapper, hex, hready, hsrc, innerSteps, runAndClassify, hvenv, hreqs]
  · refine ⟨?_, ?_, ?_, ?_, ?_, ?_⟩
    · simp [runWrapper, hex, hready, hsrc, innerSteps, runAndClassify, hvenv, hreqs, hinst,
        occursBefore, List.findIdx?, Ev.isWriteRunner, Ev.isUpload]
    · simp [runWrapper, hex, hready, hsrc, innerSteps, runAndClassify, hvenv, hreqs, hinst,
        occursBefore, List.findIdx?, Ev.isUpload, Ev.isVenvCreate]
    · simp [runWrapper, hex, hready, hsrc, innerSteps, runAndClassify, hvenv, hreqs, hinst,
        occursBefore, List.findIdx?, Ev.isVenvCreate, Ev.isRunScript]
    · intro r rs hreq
      constructor
      · simp [runWrapper, hex, hready, hsrc, innerSteps, runAndClassify, hvenv, hreqs, hinst,
          occursBefore, List.findIdx?, Ev.isVenvCreate, Ev.isPipInstall]
      · simp [runWrapper, hex, hready, hsrc, innerSteps, runAndClassify, hvenv, hreqs, hinst,
          occursBefore, List.findIdx?, Ev.isPipInstall, Ev.isRunScript]
    · simp [runWrapper, hex, hready, hsrc, innerSteps, runAndClassify, hvenv, hreqs, hinst]
    · simp [runWrapper, hex, hready, hsrc, innerSteps, runAndClassify, hvenv, hreqs, hinst]

/-- Witness for C7 amended at the concrete healthy world with one
requirement. -/
theorem stage_order_amended_witness :
    occursBefore Ev.isUpload Ev.isVenvCreate
        (runWrapper baseWorld baseConfig baseSrc "f" "()" "\x7b\x7d").2 = true
    ∧ occursBefore Ev.isVenvCreate Ev.isRunScript
        (runWrapper baseWorld baseConfig baseSrc "f" "()" "\x7b\x7d").2 = true
    ∧ occursBefore Ev.isPipInstall Ev.isRunScript
        (runWrapper baseWorld baseConfig baseSrc "f" "()" "\x7b\x7d").2 = true
    ∧ Ev.upload "/tmp/runner.py"
        ∈ (runWrapper baseWorld baseConfig baseSrc "f" "()" "\x7b\x7d").2 := by
  have h := stage_order_amended baseWorld baseConfig baseSrc "f" "()" "\x7b\x7d"
    ⟨"e1", "NVIDIA A100-SXM4-80GB"⟩ "def f():\n    return 42"
    (by rfl) (by rfl) (by rfl) (by rfl) (by rfl)
  exact ⟨h.2.1, h.2.2.1, (h.2.2.2.1 "numpy" [] (by rfl)).2, h.2.2.2.2.1⟩

end Volt
